import Mathlib

namespace DiscordAgent

/-- Bot settings snapshot, mirroring the `botSettings` row used by the bot
(`contextAwareness`, `autoModeration`, `debugMode`, `contextSize`). -/
structure BotSettings where
  contextAwareness : Bool
  autoModeration : Bool
  debugMode : Bool
  contextSize : Nat
  deriving Repr, DecidableEq

/-- `DEFAULT_CONTEXT_SIZE` from `context.ts`. -/
def DEFAULT_CONTEXT_SIZE : Nat := 5

/-- A conversation context entry (`ContextMessage` in `context.ts`). -/
structure ContextMessage where
  role : String
  content : String
  timestamp : Nat
  deriving Repr, DecidableEq

/-- A stored conversation row. -/
structure Conversation where
  id : Nat
  userId : String
  context : List ContextMessage
  active : Bool
  deriving Repr, DecidableEq

/-- The persistence layer's conversation table. -/
structure Store where
  conversations : List Conversation
  nextId : Nat
  deriving Repr, DecidableEq

def emptyStore : Store := { conversations := [], nextId := 0 }

/-- `storage.getActiveConversationByUserId`. -/
def Store.getActiveConversationByUserId (s : Store) (userId : String) : Option Conversation :=
  s.conversations.find? (fun c => c.userId == userId && c.active)

/-- `storage.createConversation` with empty context and `active: true`. -/
def Store.createConversation (s : Store) (userId : String) : Conversation × Store :=
  let c : Conversation := { id := s.nextId, userId := userId, context := [], active := true }
  (c, { conversations := s.conversations ++ [c], nextId := s.nextId + 1 })

/-- `storage.updateConversation(id, context)`. -/
def Store.updateConversation (s : Store) (id : Nat) (ctx : List ContextMessage) : Store :=
  { s with
    conversations :=
      s.conversations.map (fun c => if c.id = id then { c with context := ctx } else c) }

/-- JavaScript `a.slice(-k)`: for `k > 0` the last `min k a.length` elements;
for `k = 0` (JS `-0`) the whole array. -/
def jsSliceLast (k : Nat) (l : List α) : List α :=
  if k = 0 then l else l.drop (l.length - k)

/-- `botSettings.contextSize || DEFAULT_CONTEXT_SIZE` (JS `||`: `0` is falsy). -/
def effectiveContextSize (bs : BotSettings) : Nat :=
  if bs.contextSize = 0 then DEFAULT_CONTEXT_SIZE else bs.contextSize

/-- The context-limiting step shared by both append paths:
`if (updatedContext.length > contextSize * 2) updatedContext = updatedContext.slice(-contextSize * 2)`. -/
def truncated (c : Nat) (l : List ContextMessage) : List ContextMessage :=
  if l.length > c * 2 then jsSliceLast (c * 2) l else l

/-- `a == b` prefix test over character lists (JS `String.prototype.startsWith`
at a fixed position), written structurally so the kernel can evaluate it. -/
def listIsPref : List Char → List Char → Bool
  | [], _ => true
  | _ :: _, [] => false
  | a :: as, b :: bs => a == b && listIsPref as bs

/-- Substring search over character lists (JS `String.prototype.includes`). -/
def listHasSub : List Char → List Char → Bool
  | [], needle => needle.isEmpty
  | h :: rest, needle => listIsPref needle (h :: rest) || listHasSub rest needle

/-- JS `hay.includes(needle)`. -/
def strContains (hay needle : String) : Bool :=
  listHasSub hay.toList needle.toList

/-- JS `s.toLowerCase()` (ASCII-relevant part). -/
def lowerStr (s : String) : String :=
  String.mk (s.toList.map Char.toLower)

/-- JS `s.trim()`. -/
def trimStr (s : String) : String :=
  String.mk (((s.toList.dropWhile Char.isWhitespace).reverse.dropWhile Char.isWhitespace).reverse)

/-- JS `Math.max` folded over a list of scores (`Math.max()` of an empty
spread is `-Infinity`, modelled as `none`). -/
def jsMaxQ : List ℚ → Option ℚ
  | [] => none
  | x :: xs => some (xs.foldl (fun a b => if a < b then b else a) x)

/-- `some m > t` with `none` standing for `-Infinity` (never above a
real threshold). -/
def qGT : Option ℚ → ℚ → Bool
  | none, _ => false
  | some m, t => decide (t < m)

/-- The literal `0.9` of `moderation.ts`. -/
def threshold09 : ℚ := ⟨9, 10, by norm_num, by norm_num⟩

/-- The literal `0.7` of `moderation.ts`. -/
def threshold07 : ℚ := ⟨7, 10, by norm_num, by norm_num⟩

/-! ### Context Manager (`server/bot/context.ts`) -/

/-- `getContext(userId)`: empty when settings are missing or
`contextAwareness` is off; otherwise the last `contextSize` entries of the
active conversation, creating an empty active conversation when none exists.
Returns the context together with the (possibly extended) store. -/
def getContext (settings : Option BotSettings) (userId : String) (s : Store) :
    List ContextMessage × Store :=
  match settings with
  | none => ([], s)
  | some bs =>
    if !bs.contextAwareness then ([], s)
    else
      let contextSize := effectiveContextSize bs
      match s.getActiveConversationByUserId userId with
      | some conv => (jsSliceLast contextSize conv.context, s)
      | none =>
        let (conv, s1) := s.createConversation userId
        (jsSliceLast contextSize conv.context, s1)

/-- `addUserMessage(message)`: no-op when settings are missing or
`contextAwareness` is off; else lazily create an active conversation, append
the user turn, truncate to the last `contextSize * 2` entries when over the
bound, and persist via `updateConversation`. -/
def addUserMessage (settings : Option BotSettings) (userId content : String) (now : Nat)
    (s : Store) : Store :=
  match settings with
  | none => s
  | some bs =>
    if !bs.contextAwareness then s
    else
      let found := s.getActiveConversationByUserId userId
      let (conv, s1) :=
        match found with
        | some c => (c, s)
        | none => s.createConversation userId
      let msg : ContextMessage := { role := "user", content := content, timestamp := now }
      s1.updateConversation conv.id (truncated (effectiveContextSize bs) (conv.context ++ [msg]))

/-- `addBotMessage(userId, content)`: no-op when settings are missing or
`contextAwareness` is off; when no active conversation exists it only logs an
error and returns (no lazy creation); else append the assistant turn,
truncate to the last `contextSize * 2` entries when over the bound, persist. -/
def addBotMessage (settings : Option BotSettings) (userId content : String) (now : Nat)
    (s : Store) : Store :=
  match settings with
  | none => s
  | some bs =>
    if !bs.contextAwareness then s
    else
      match s.getActiveConversationByUserId userId with
      | none => s
      | some conv =>
        let msg : ContextMessage := { role := "assistant", content := content, timestamp := now }
        s.updateConversation conv.id (truncated (effectiveContextSize bs) (conv.context ++ [msg]))

/-- `updateContext(userId, newContextSize)` (the resize operation): truncate
the active conversation's window to the last `newContextSize * 2` entries when
it exceeds that bound; otherwise touch nothing. -/
def resizeContext (userId : String) (newContextSize : Nat) (s : Store) : Store :=
  match s.getActiveConversationByUserId userId with
  | none => s
  | some conv =>
    if conv.context.length > newContextSize * 2 then
      s.updateConversation conv.id (jsSliceLast (newContextSize * 2) conv.context)
    else s

/-- One Context Manager mutation request, with the settings snapshot seen by
that call (appends read settings; resize takes the new size directly). -/
inductive CtxOp where
  | appendUser (settings : Option BotSettings) (content : String) (now : Nat)
  | appendAssistant (settings : Option BotSettings) (content : String) (now : Nat)
  | resize (newSize : Nat)
  deriving Repr, DecidableEq

/-- Run one context operation for a user; the Bool records whether the call
wrote to the store (`createConversation`/`updateConversation` issued). -/
def ctxStep (userId : String) (op : CtxOp) (s : Store) : Store × Bool :=
  match op with
  | .appendUser settings content now =>
    let s' := addUserMessage settings userId content now s
    (s', match settings with
         | none => false
         | some bs => bs.contextAwareness)
  | .appendAssistant settings content now =>
    let s' := addBotMessage settings userId content now s
    (s', match settings with
         | none => false
         | some bs =>
           bs.contextAwareness && (s.getActiveConversationByUserId userId).isSome)
  | .resize newSize =>
    let s' := resizeContext userId newSize s
    (s', match s.getActiveConversationByUserId userId with
         | none => false
         | some conv => decide (conv.context.length > newSize * 2))

/-- The context-size bound in effect for one operation (for appends the
effective `contextSize`; for resize the new size). -/
def ctxOpSize : CtxOp → Nat
  | .appendUser (some bs) _ _ => effectiveContextSize bs
  | .appendUser none _ _ => DEFAULT_CONTEXT_SIZE
  | .appendAssistant (some bs) _ _ => effectiveContextSize bs
  | .appendAssistant none _ _ => DEFAULT_CONTEXT_SIZE
  | .resize n => n

/-- Whether an operation asks for a positive size (only resize can ask for 0). -/
def CtxOp.sizeOk : CtxOp → Bool
  | .resize n => decide (1 ≤ n)
  | _ => true

/-- Run a sequence of context operations for one user. -/
def runCtx (userId : String) (ops : List CtxOp) (s : Store) : Store :=
  ops.foldl (fun st op => (ctxStep userId op st).1) s

/-- The window of the user's active conversation, when one exists. -/
def Store.activeWindow (s : Store) (userId : String) : Option (List ContextMessage) :=
  (s.getActiveConversationByUserId userId).map (·.context)

/-! ### Moderation Classifier (`server/bot/moderation.ts`) -/

/-- The `action` field of `ModerationResult`. -/
inductive MAction where
  | none
  | warn
  | mute
  | kick
  | ban
  deriving Repr, DecidableEq

/-- The string value the action holds at runtime in JS. -/
def MAction.toStr : MAction → String
  | .none => "none"
  | .warn => "warn"
  | .mute => "mute"
  | .kick => "kick"
  | .ban => "ban"

/-- `ModerationResult`. -/
structure ModerationResult where
  action : MAction
  reason : Option String
  deriving Repr, DecidableEq

/-- The OpenAI moderation payload consumed by `moderateMessage`:
an overall `flagged` bit, per-category flags, and per-category scores. -/
structure ScorerResults where
  flagged : Bool
  categories : List (String × Bool)
  category_scores : List (String × ℚ)
  deriving Repr, DecidableEq

/-- Observable store writes and gateway side effects of the moderation path,
in program order. Side-effect entries record attempts (failures are caught). -/
inductive MEvent where
  | recordAction (userId : String) (type : MAction) (reason : String)
  | deleteMessage
  | privateNotice (text : String)
  | timeoutMember (durationMs : Nat) (reason : String)
  | kickMember (reason : String)
  | banMember (reason : String)
  deriving Repr, DecidableEq

/-- True exactly for the store write of a ModerationAction record. -/
def MEvent.isRecord : MEvent → Bool
  | .recordAction _ _ _ => true
  | _ => false

/-- Environment/oracle for one `moderateMessage` call: the settings snapshot,
the outcome of the scorer call, whether the record write succeeds, whether the
message has guild + member context, and whether the timeout call succeeds. -/
structure ModEnv where
  settings : Option BotSettings
  scorer : Except String ScorerResults
  recordOk : Bool
  inGuild : Bool
  timeoutOk : Bool
  deriving Repr

/-- The fixed `highSeverityCategories` list of `moderation.ts`. -/
def highSeverityCategories : List String :=
  ["sexual/minors", "violence/graphic", "hate/threatening", "self-harm/intent"]

/-- Names of the categories whose flag is `true`. -/
def flaggedCategoryNames (results : ScorerResults) : List String :=
  (results.categories.filter (·.2)).map (·.1)

/-- The severity decision of `moderateMessage` for a flagged payload:
`maxScore` is `Math.max(...Object.values(category_scores))` — over ALL
categories — and the fixed high-severity subset or `maxScore > 0.9` gives
`mute`, else `maxScore > 0.7` gives `warn`, else `none`. -/
def moderationDecision (results : ScorerResults) : MAction :=
  let flaggedCategories := flaggedCategoryNames results
  let maxScore := jsMaxQ (results.category_scores.map (·.2))
  let hasHighSeverity := flaggedCategories.any (fun c => highSeverityCategories.contains c)
  if hasHighSeverity || qGT maxScore threshold09 then .mute
  else if qGT maxScore threshold07 then .warn
  else .none

/-- The reason string built by `moderateMessage`. -/
def moderationReason (results : ScorerResults) : String :=
  "Message contained inappropriate content: " ++
    String.intercalate ", " (flaggedCategoryNames results)

/-- `executeModerationAction`: best-effort delete first (failure caught in its
own try), then the per-action effect in a second try — for `mute`, a failing
timeout call aborts that try before the private notice. -/
def executeModerationAction (env : ModEnv) (action : MAction) (reason : String) :
    List MEvent :=
  match action with
  | .none => []
  | .warn =>
    [MEvent.deleteMessage,
     MEvent.privateNotice ("⚠️ Warning: Your message was removed. " ++ reason)]
  | .mute =>
    MEvent.deleteMessage ::
      (if env.inGuild then
        MEvent.timeoutMember (10 * 60 * 1000) reason ::
          (if env.timeoutOk then
            [MEvent.privateNotice ("🔇 You have been temporarily muted. " ++ reason)]
          else [])
      else [])
  | .kick =>
    MEvent.deleteMessage :: (if env.inGuild then [MEvent.kickMember reason] else [])
  | .ban =>
    MEvent.deleteMessage :: (if env.inGuild then [MEvent.banMember reason] else [])

/-- The no-action result every guard/exception path returns. -/
def noneResult : ModerationResult × List MEvent := ({ action := .none, reason := Option.none }, [])

/-- `moderateMessage(message)`: guard on settings/`autoModeration`, skip blank
content, call the scorer (an exception lands in the outer catch and yields
`none`); for a flagged payload decide the action, and for `warn`/`mute` write
the ModerationAction record and then run the side effects. A failing record
write throws into the outer catch, yielding `none` with no side effects. -/
def moderateMessage (env : ModEnv) (userId content : String) :
    ModerationResult × List MEvent :=
  match env.settings with
  | Option.none => noneResult
  | some bs =>
    if !bs.autoModeration then noneResult
    else if trimStr content = "" then noneResult
    else
      match env.scorer with
      | .error _ => noneResult
      | .ok results =>
        if results.flagged then
          let action := moderationDecision results
          if action = .none then noneResult
          else
            let reason := moderationReason results
            if env.recordOk then
              ({ action := action, reason := some reason },
               MEvent.recordAction userId action reason ::
                 executeModerationAction env action reason)
            else noneResult
        else noneResult

/-- The decision policy as the specification words it: `maxScore` is the
maximum score among the FLAGGED categories only. Stated here solely to be
compared against `moderationDecision`. -/
def claimedDecision (results : ScorerResults) : MAction :=
  let flaggedCategories := flaggedCategoryNames results
  if flaggedCategories = [] then .none
  else
    let flaggedScores :=
      (results.category_scores.filter (fun kv => flaggedCategories.contains kv.1)).map (·.2)
    let maxScore := jsMaxQ flaggedScores
    let hasHighSeverity := flaggedCategories.any (fun c => highSeverityCategories.contains c)
    if hasHighSeverity || qGT maxScore threshold09 then .mute
    else if qGT maxScore threshold07 then .warn
    else .none

/-! ### NLP Responder and availability state (`server/bot/nlp.ts`)

The module-level mutable `useOpenAI : boolean` is the availability state
(`true` = Live, `false` = Fallback). A backend call's outcome is an oracle
input; its error text classifies quota/rate-limit failures by substring,
exactly as the catch blocks do. -/

/-- The outcome of one `openai.chat.completions.create` call: success with an
optional text (`choices[0].message.content` may be null) or a thrown error
carrying its string form. -/
inductive BackendOutcome where
  | ok (text : Option String)
  | fail (err : String)
  deriving Repr

/-- `error.toString().includes('insufficient_quota') ||
error.toString().includes('rate limit')`. -/
def quotaClass (err : String) : Bool :=
  strContains err "insufficient_quota" || strContains err "rate limit"

/-- `getFallbackResponse(prompt)`: the deterministic keyword matcher over the
lower-cased prompt. -/
def getFallbackResponse (prompt : String) : String :=
  let promptLower := lowerStr prompt
  if strContains promptLower "help" || strContains promptLower "command" then
    "I can help you with various tasks! Try commands like 'info', 'weather', 'reminder', or just chat with me naturally."
  else if strContains promptLower "hello" || strContains promptLower "hi " || promptLower == "hi" then
    "Hello there! I'm your AI assistant bot. How can I help you today?"
  else if strContains promptLower "weather" then
    "I'd like to provide weather information, but I'm currently running in offline mode. Please add a valid API key to enable full functionality."
  else if strContains promptLower "joke" || strContains promptLower "funny" then
    "Why don't scientists trust atoms? Because they make up everything!"
  else if strContains promptLower "thank" then
    "You're welcome! Let me know if you need anything else."
  else if strContains promptLower "discord" then
    "Discord is a popular communication platform designed for creating communities. Users can communicate via voice calls, video calls, text messaging, and media and files in private chats or as part of communities called 'servers'."
  else if strContains promptLower "bot" || strContains promptLower "ai" then
    "I'm an AI assistant designed to help with conversations, answer questions, and assist with various tasks on Discord. I'm currently running with limited functionality."
  else
    "I'm currently operating in offline mode with limited functionality. Please provide a valid OpenAI API key with sufficient quota to enable my full AI capabilities."

/-- The reply used when a null completion text comes back. -/
def emptyCompletionReply : String := "I'm sorry, I couldn't generate a response."

/-- Result of one standalone generation call. -/
structure GenOutcome where
  useOpenAI : Bool
  response : String
  backendAttempted : Bool
  deriving Repr, DecidableEq

/-- `generateResponse(prompt)`: Fallback state answers locally; Live state
makes one backend attempt, demotes the state exactly on a quota/rate-limit
class failure, and answers any failure with the fallback matcher. -/
def generateResponse (useOpenAI : Bool) (prompt : String) (backend : BackendOutcome) :
    GenOutcome :=
  if !useOpenAI then
    { useOpenAI := false, response := getFallbackResponse prompt, backendAttempted := false }
  else
    match backend with
    | .ok txt =>
      { useOpenAI := true, response := txt.getD emptyCompletionReply, backendAttempted := true }
    | .fail err =>
      { useOpenAI := !quotaClass err, response := getFallbackResponse prompt,
        backendAttempted := true }

/-- Result of one `processNaturalLanguage` call. -/
structure NLPOutcome where
  useOpenAI : Bool
  response : String
  store : Store
  backendAttempted : Bool
  deriving Repr, DecidableEq

/-- `processNaturalLanguage(message)`: append the user turn, read the context
(possibly creating a conversation), then either answer from the fallback
matcher (Fallback state) or make one backend attempt (Live state) — demoting
the state exactly on a quota/rate-limit class failure and answering any
failure locally — then reply and append the assistant turn. -/
def processNaturalLanguage (useOpenAI : Bool) (settings : Option BotSettings)
    (userId content : String) (now : Nat) (backend : BackendOutcome) (s : Store) :
    NLPOutcome :=
  let s1 := addUserMessage settings userId content now s
  let s2 := (getContext settings userId s1).2
  let gen : GenOutcome :=
    if !useOpenAI then
      { useOpenAI := false, response := getFallbackResponse content, backendAttempted := false }
    else
      match backend with
      | .ok txt =>
        { useOpenAI := true, response := txt.getD emptyCompletionReply,
          backendAttempted := true }
      | .fail err =>
        { useOpenAI := !quotaClass err, response := getFallbackResponse content,
          backendAttempted := true }
  { useOpenAI := gen.useOpenAI, response := gen.response,
    store := addBotMessage settings userId gen.response now s2,
    backendAttempted := gen.backendAttempted }

/-- The positive keyword list of `getFallbackSentiment`. -/
def positiveWords : List String :=
  ["good", "great", "amazing", "excellent", "wonderful", "fantastic", "awesome",
   "happy", "joy", "love", "like", "best", "thank", "thanks", "appreciate",
   "perfect", "brilliant", "outstanding"]

/-- The negative keyword list of `getFallbackSentiment`. -/
def negativeWords : List String :=
  ["bad", "terrible", "awful", "horrible", "worst", "hate", "dislike", "sad",
   "angry", "annoyed", "disappointed", "poor", "fail", "sucks", "stupid",
   "useless", "broken"]

/-- JS `Math.round(k / 2)` for a natural `k` (round half away from zero on
non-negative input). -/
def jsRoundHalf (k : Nat) : Nat := (k + 1) / 2

/-- JS `Math.min(0.7, n / m)` over rationals with `n m : Nat`: the raw ratio
capped at `0.7`. `m` is a word count, never `0` (split always yields at least
one piece). -/
def cappedRatio (n m : Nat) : ℚ :=
  min threshold07 ((n : ℚ) / (m : ℚ))

/-- `getFallbackSentiment(text)`: keyword-hit counting over the lower-cased
text, with rating shifted from 3 by half the count difference (rounded,
clamped to [1,5]) and confidence `min(0.7, hits/wordCount) + 0.1`, or
`{3, 0.5}` on a tie. -/
def getFallbackSentiment (text : String) : ℤ × ℚ :=
  let textLower := lowerStr text
  let positiveCount := (positiveWords.filter (fun w => strContains textLower w)).length
  let negativeCount := (negativeWords.filter (fun w => strContains textLower w)).length
  let totalWords := (text.splitOn " ").length
  let confidenceBase := cappedRatio (positiveCount + negativeCount) totalWords
  if positiveCount > negativeCount then
    (min 5 (3 + (jsRoundHalf (positiveCount - negativeCount) : ℤ)), confidenceBase + 1/10)
  else if negativeCount > positiveCount then
    (max 1 (3 - (jsRoundHalf (negativeCount - positiveCount) : ℤ)), confidenceBase + 1/10)
  else
    (3, 1/2)

/-- Backend outcome for one sentiment call: a parsed `{rating, confidence}`
payload or a thrown error. -/
inductive SentimentOutcome where
  | ok (rating : ℚ) (confidence : ℚ)
  | fail (err : String)
  deriving Repr

/-- JS `Math.round` on a rational: floor of `x + 1/2`. -/
def jsRoundQ (x : ℚ) : ℤ := ⌊x + 1/2⌋

/-- `analyzeSentiment(text)`: Fallback state uses the keyword counter; Live
state makes one backend attempt, clamps the parsed rating into [1,5] and the
confidence into [0,1], demotes the state exactly on a quota/rate-limit class
failure, and answers any failure with the keyword counter.
Output: (state, rating, confidence, backendAttempted). -/
def analyzeSentiment (useOpenAI : Bool) (text : String) (backend : SentimentOutcome) :
    Bool × ℤ × ℚ × Bool :=
  if !useOpenAI then
    (false, (getFallbackSentiment text).1, (getFallbackSentiment text).2, false)
  else
    match backend with
    | .ok rating confidence =>
      (true, max 1 (min 5 (jsRoundQ rating)), max 0 (min 1 confidence), true)
    | .fail err =>
      (!quotaClass err, (getFallbackSentiment text).1, (getFallbackSentiment text).2, true)

/-! ### Dispatcher (`server/bot/index.ts`, `Events.MessageCreate` handler) -/

/-- One inbound gateway message event as the handler sees it. -/
structure InboundEvent where
  authorId : String
  isBotAuthor : Bool
  content : String
  isMentioned : Bool
  isDM : Bool
  deriving Repr, DecidableEq

/-- The command marker `PREFIX = '!'`. -/
def commandMark : String := "!"

/-- The fixed reply of the reduced-intent (no message-content privilege)
branch. -/
def limitedTemplate : String :=
  "Hi there! I'm currently running with limited permissions. " ++
  "I can see that you mentioned me, but I can't read message content due to Discord's privacy rules. " ++
  "Please ask your server admin to enable the 'MESSAGE CONTENT INTENT' for me in the Discord Developer Portal."

/-- The route the handler takes for one message. -/
inductive Route where
  | ignore
  | command (rawContent : String)
  | moderateTerminal (result : ModerationResult)
  | respond
  | respondLimited (reply : String)
  deriving Repr, DecidableEq

/-- JS truthiness of a string value: every non-empty string is truthy. -/
def jsTruthyStr (s : String) : Bool := s ≠ ""

/-- The message handler's routing decision. `hasPriv` is the
message-content-privilege capability flag; `modResult` is the oracle for what
`moderateMessage` returned when it is consulted. The moderation guard is the
source's `if (moderationResult.action)` — a truthiness test on the action
STRING, so `'none'` also passes it. -/
def dispatch (hasPriv : Bool) (settings : Option BotSettings)
    (modResult : ModerationResult) (e : InboundEvent) : Route :=
  if e.isBotAuthor then .ignore
  else if hasPriv then
    if listIsPref commandMark.toList e.content.toList then .command e.content
    else
      let autoMod := match settings with
        | Option.none => false
        | some bs => bs.autoModeration
      if autoMod && jsTruthyStr modResult.action.toStr then .moderateTerminal modResult
      else if e.isMentioned || e.isDM then .respond
      else .ignore
  else
    if e.isMentioned || e.isDM then .respondLimited limitedTemplate
    else .ignore

/-- The generic apology of the outer catch blocks in
`processNaturalLanguage` and the message handler. -/
def apologyReply : String :=
  "I'm sorry, I'm having trouble processing your request right now. Please try again later."

/-! ### Concrete instances used to evaluate the definitions -/

/-- Settings with both feature gates on and the default window size. -/
def bsOn : BotSettings :=
  { contextAwareness := true, autoModeration := true, debugMode := false, contextSize := 5 }

/-- Settings with context awareness off. -/
def bsOff : BotSettings :=
  { contextAwareness := false, autoModeration := true, debugMode := false, contextSize := 5 }

/-- The score value `0.95`. -/
def score095 : ℚ := ⟨19, 20, by norm_num, by norm_num⟩

/-- The score value `0.5`. -/
def score05 : ℚ := ⟨1, 2, by norm_num, by norm_num⟩

/-- A non-bot mention message that is not a command. -/
def evMention : InboundEvent :=
  { authorId := "u", isBotAuthor := false, content := "hello", isMentioned := true, isDM := false }

/-- A scorer payload where only the low-scoring category is flagged while an
unflagged category carries the highest score. -/
def cexResults : ScorerResults :=
  { flagged := true,
    categories := [("harassment", true), ("violence", false)],
    category_scores := [("harassment", score05), ("violence", score095)] }

/-- Environment delivering `cexResults` with every write and effect available. -/
def cexEnv : ModEnv :=
  { settings := some bsOn, scorer := .ok cexResults, recordOk := true, inGuild := true,
    timeoutOk := true }

/-- A flagged high-score payload whose side effects will all fail. -/
def muteResults : ScorerResults :=
  { flagged := true,
    categories := [("violence", true)],
    category_scores := [("violence", score095)] }

/-- Environment delivering `muteResults` while the guild context is missing
and the timeout call fails — every side effect fails. -/
def envEffectsFail : ModEnv :=
  { settings := some bsOn, scorer := .ok muteResults, recordOk := true, inGuild := false,
    timeoutOk := false }

/-- Environment whose scorer call throws. -/
def envScorerErr : ModEnv :=
  { settings := some bsOn, scorer := .error "OpenAI API error", recordOk := true,
    inGuild := true, timeoutOk := true }

/-- A payload the scorer did not flag. -/
def unflaggedResults : ScorerResults :=
  { flagged := false, categories := [("violence", false)],
    category_scores := [("violence", score05)] }

/-- Environment delivering the unflagged payload. -/
def envUnflagged : ModEnv :=
  { settings := some bsOn, scorer := .ok unflaggedResults, recordOk := true, inGuild := true,
    timeoutOk := true }

/-- The score value `0.75`. -/
def score075 : ℚ := ⟨3, 4, by norm_num, by norm_num⟩

/-- A flagged low-severity payload whose top score sits between the two
thresholds. -/
def warnResults : ScorerResults :=
  { flagged := true,
    categories := [("harassment", true)],
    category_scores := [("harassment", score075)] }

/-- Environment delivering `warnResults` with everything available. -/
def envWarn : ModEnv :=
  { settings := some bsOn, scorer := .ok warnResults, recordOk := true, inGuild := true,
    timeoutOk := true }

/-- An active one-message conversation for user `u`. -/
def convU : Conversation :=
  { id := 0, userId := "u", context := [{ role := "user", content := "hi", timestamp := 0 }],
    active := true }

/-- A store holding exactly `convU`. -/
def storeU : Store := { conversations := [convU], nextId := 1 }

/-! ### Helper lemmas -/

theorem effectiveContextSize_pos (bs : BotSettings) : 1 ≤ effectiveContextSize bs := by
  unfold effectiveContextSize DEFAULT_CONTEXT_SIZE
  split <;> omega

theorem jsSliceLast_length_le {α : Type} (k : Nat) (l : List α) (hk : k ≠ 0) :
    (jsSliceLast k l).length ≤ k := by
  unfold jsSliceLast
  rw [if_neg hk, List.length_drop]
  omega

theorem jsSliceLast_suffix {α : Type} (k : Nat) (l : List α) : jsSliceLast k l <:+ l := by
  unfold jsSliceLast
  split
  · exact List.suffix_refl l
  · exact List.drop_suffix _ l

theorem jsSliceLast_concat_getLast {α : Type} (k : Nat) (hk : k ≠ 0) (l : List α) (a : α) :
    (jsSliceLast k (l ++ [a])).getLast? = some a := by
  unfold jsSliceLast
  rw [if_neg hk]
  have hlen : (l ++ [a]).length = l.length + 1 := by simp
  rw [hlen, List.drop_append_eq_append_drop]
  have h2 : l.length + 1 - k - l.length = 0 := by omega
  rw [h2]
  simp [List.getLast?_concat]

theorem truncated_length_le (c : Nat) (hc : 1 ≤ c) (l : List ContextMessage) :
    (truncated c l).length ≤ 2 * c := by
  unfold truncated
  split
  · have := jsSliceLast_length_le (c * 2) l (by omega)
    omega
  · omega

theorem truncated_concat_getLast (c : Nat) (hc : 1 ≤ c) (l : List ContextMessage)
    (a : ContextMessage) : (truncated c (l ++ [a])).getLast? = some a := by
  unfold truncated
  split
  · exact jsSliceLast_concat_getLast _ (by omega) _ _
  · exact List.getLast?_concat _

theorem truncated_suffix (c : Nat) (l : List ContextMessage) : truncated c l <:+ l := by
  unfold truncated
  split
  · exact jsSliceLast_suffix _ _
  · exact List.suffix_refl _

theorem find?_map_preserving {α : Type} (p : α → Bool) (f : α → α)
    (hf : ∀ a, p (f a) = p a) (l : List α) :
    (l.map f).find? p = (l.find? p).map f := by
  induction l with
  | nil => rfl
  | cons a t ih =>
    cases hpa : p a
    · have hfa : p (f a) = false := by rw [hf]; exact hpa
      simp [List.find?, hpa, hfa, ih]
    · have hfa : p (f a) = true := by rw [hf]; exact hpa
      simp [List.find?, hpa, hfa]

theorem activeAfterUpdate (s : Store) (u : String) (conv : Conversation)
    (ctx : List ContextMessage) (h : s.getActiveConversationByUserId u = some conv) :
    (s.updateConversation conv.id ctx).getActiveConversationByUserId u =
      some { conv with context := ctx } := by
  unfold Store.getActiveConversationByUserId at h
  unfold Store.getActiveConversationByUserId Store.updateConversation
  rw [find?_map_preserving _ _ ?_ s.conversations, h, Option.map_some']
  · simp
  · intro c
    by_cases hc : c.id = conv.id <;> simp [hc]

theorem activeAfterCreate (s : Store) (u : String)
    (h : s.getActiveConversationByUserId u = Option.none) :
    ((s.createConversation u).2).getActiveConversationByUserId u =
      some (s.createConversation u).1 := by
  unfold Store.getActiveConversationByUserId at h
  unfold Store.getActiveConversationByUserId Store.createConversation
  rw [List.find?_append, h]
  simp [List.find?]

theorem addUser_window_bound (bs : BotSettings) (u c : String) (now : Nat) (s : Store)
    (hca : bs.contextAwareness = true) :
    ∃ w, (addUserMessage (some bs) u c now s).activeWindow u = some w ∧
      w.length ≤ 2 * effectiveContextSize bs := by
  simp only [addUserMessage]
  rw [if_neg (by simp [hca])]
  cases hfound : s.getActiveConversationByUserId u with
  | some conv =>
    simp only [hfound]
    refine ⟨truncated (effectiveContextSize bs)
      (conv.context ++ [{ role := "user", content := c, timestamp := now }]), ?_, ?_⟩
    · unfold Store.activeWindow
      rw [activeAfterUpdate s u conv _ hfound]
      rfl
    · exact truncated_length_le _ (effectiveContextSize_pos bs) _
  | none =>
    simp only [hfound]
    rcases hc : s.createConversation u with ⟨conv1, s1⟩
    have h2 := activeAfterCreate s u hfound
    rw [hc] at h2
    simp only [hc]
    refine ⟨truncated (effectiveContextSize bs)
      (conv1.context ++ [{ role := "user", content := c, timestamp := now }]), ?_, ?_⟩
    · unfold Store.activeWindow
      rw [activeAfterUpdate s1 u conv1 _ h2]
      rfl
    · exact truncated_length_le _ (effectiveContextSize_pos bs) _

theorem addBot_noConversation (settings : Option BotSettings) (u content : String) (now : Nat)
    (s : Store) (hfound : s.getActiveConversationByUserId u = Option.none) :
    addBotMessage settings u content now s = s := by
  cases settings with
  | none => rfl
  | some bs =>
    cases hca : bs.contextAwareness <;> simp [addBotMessage, hfound, hca]

theorem addBot_appends (bs : BotSettings) (u content : String) (now : Nat) (s : Store)
    (conv : Conversation) (hca : bs.contextAwareness = true)
    (hfound : s.getActiveConversationByUserId u = some conv) :
    ∃ w, (addBotMessage (some bs) u content now s).activeWindow u = some w ∧
      w.getLast? = some { role := "assistant", content := content, timestamp := now } ∧
      w <:+ conv.context ++ [{ role := "assistant", content := content, timestamp := now }] ∧
      w.length ≤ 2 * effectiveContextSize bs := by
  simp only [addBotMessage]
  rw [if_neg (by simp [hca])]
  simp only [hfound]
  refine ⟨truncated (effectiveContextSize bs)
    (conv.context ++ [{ role := "assistant", content := content, timestamp := now }]),
    ?_, ?_, ?_, ?_⟩
  · unfold Store.activeWindow
    rw [activeAfterUpdate s u conv _ hfound]
    rfl
  · exact truncated_concat_getLast _ (effectiveContextSize_pos bs) _ _
  · exact truncated_suffix _ _
  · exact truncated_length_le _ (effectiveContextSize_pos bs) _

theorem resize_window_bound (u : String) (n : Nat) (s : Store) (conv : Conversation)
    (hn : 1 ≤ n) (hfound : s.getActiveConversationByUserId u = some conv)
    (hgt : conv.context.length > n * 2) :
    ∃ w, (resizeContext u n s).activeWindow u = some w ∧ w.length ≤ 2 * n := by
  simp only [resizeContext, hfound, if_pos hgt]
  refine ⟨jsSliceLast (n * 2) conv.context, ?_, ?_⟩
  · unfold Store.activeWindow
    rw [activeAfterUpdate s u conv _ hfound]
    rfl
  · have := jsSliceLast_length_le (n * 2) conv.context (by omega)
    omega

theorem ctxStep_window_bound (u : String) (op : CtxOp) (s : Store)
    (hok : op.sizeOk = true) (hw : (ctxStep u op s).2 = true) :
    ∃ w, (ctxStep u op s).1.activeWindow u = some w ∧ w.length ≤ 2 * ctxOpSize op := by
  cases op with
  | appendUser settings content now =>
    cases settings with
    | none => simp [ctxStep] at hw
    | some bs =>
      simp only [ctxStep] at hw
      simpa [ctxStep, ctxOpSize] using addUser_window_bound bs u content now s hw
  | appendAssistant settings content now =>
    cases settings with
    | none => simp [ctxStep] at hw
    | some bs =>
      simp only [ctxStep, Bool.and_eq_true, Option.isSome_iff_exists] at hw
      obtain ⟨hca, conv, hfound⟩ := hw
      obtain ⟨w, h1, _, _, h4⟩ := addBot_appends bs u content now s conv hca hfound
      exact ⟨w, by simpa [ctxStep] using h1, by simpa [ctxOpSize] using h4⟩
  | resize n =>
    cases hfound : s.getActiveConversationByUserId u with
    | none => simp [ctxStep, hfound] at hw
    | some conv =>
      simp only [ctxStep, hfound, decide_eq_true_eq] at hw
      have hn : 1 ≤ n := by simpa [CtxOp.sizeOk, decide_eq_true_eq] using hok
      obtain ⟨w, h1, h2⟩ := resize_window_bound u n s conv hn hfound hw
      exact ⟨w, by simpa [ctxStep, hfound] using h1, by simpa [ctxOpSize] using h2⟩

theorem getFallbackResponse_ne_empty (p : String) : getFallbackResponse p ≠ "" := by
  simp only [getFallbackResponse]
  repeat' split
  all_goals decide

theorem flaggedNames_nil_iff (results : ScorerResults) :
    flaggedCategoryNames results = [] ↔ results.categories.any (·.2) = false := by
  unfold flaggedCategoryNames
  rw [List.map_eq_nil_iff, List.filter_eq_nil_iff, List.any_eq_false]

theorem exec_no_record (env : ModEnv) (a : MAction) (r : String) (e : MEvent)
    (he : e ∈ executeModerationAction env a r) : e.isRecord = false := by
  cases a with
  | none => simp [executeModerationAction] at he
  | warn =>
    simp only [executeModerationAction, List.mem_cons, List.mem_singleton,
      List.not_mem_nil, or_false] at he
    rcases he with rfl | rfl <;> rfl
  | mute =>
    simp only [executeModerationAction, List.mem_cons] at he
    rcases he with rfl | he
    · rfl
    · split at he
      · simp only [List.mem_cons] at he
        rcases he with rfl | he
        · rfl
        · split at he
          · simp only [List.mem_singleton] at he
            subst he; rfl
          · simp at he
      · simp at he
  | kick =>
    simp only [executeModerationAction, List.mem_cons] at he
    rcases he with rfl | he
    · rfl
    · split at he
      · simp only [List.mem_singleton] at he
        subst he; rfl
      · simp at he
  | ban =>
    simp only [executeModerationAction, List.mem_cons] at he
    rcases he with rfl | he
    · rfl
    · split at he
      · simp only [List.mem_singleton] at he
        subst he; rfl
      · simp at he

/-! ### Claim theorems -/

/-- C1: the claim says a `none` moderation result lets a mention/DM proceed to
Respond. Evaluating the handler at such an input shows the opposite: with
`autoModeration` on and the classifier returning `none`, the route is still
the terminal Moderate branch — because `if (moderationResult.action)` tests
the truthiness of the string `'none'` — so the message is never routed to
Respond. -/
theorem dispatch_none_result_still_terminal :
    dispatch true (some bsOn) { action := .none, reason := Option.none } evMention =
      Route.moderateTerminal { action := .none, reason := Option.none } ∧
    dispatch true (some bsOn) { action := .none, reason := Option.none } evMention ≠
      Route.respond ∧
    evMention.isBotAuthor = false ∧ evMention.isMentioned = true ∧
    bsOn.autoModeration = true := by decide

/-- C7: with the message-content privilege absent, routing and the reply are
independent of the message content (changing only the content changes
nothing), every non-bot mention-or-DM event gets the fixed capability-limited
template, and every other non-bot event is ignored. -/
theorem dispatch_unprivileged_uniform (settings : Option BotSettings)
    (modResult : ModerationResult) (e : InboundEvent) (c : String) :
    dispatch false settings modResult { e with content := c } =
      dispatch false settings modResult e ∧
    (e.isBotAuthor = false →
      ((e.isMentioned = true ∨ e.isDM = true) →
        dispatch false settings modResult e = Route.respondLimited limitedTemplate) ∧
      (e.isMentioned = false → e.isDM = false →
        dispatch false settings modResult e = Route.ignore)) := by
  unfold dispatch
  rcases e with ⟨a, b, ct, m, d⟩
  cases b <;> cases m <;> cases d <;> simp

/-- Witness for C7: a DM whose content even starts with the command marker is
answered with the fixed limited template. -/
theorem dispatch_unprivileged_uniform_witness :
    dispatch false Option.none { action := .none, reason := Option.none }
      { authorId := "u", isBotAuthor := false, content := "!ping", isMentioned := false,
        isDM := true } = Route.respondLimited limitedTemplate :=
  ((dispatch_unprivileged_uniform Option.none { action := .none, reason := Option.none }
      { authorId := "u", isBotAuthor := false, content := "!ping", isMentioned := false,
        isDM := true } "x").2 rfl).1 (Or.inr rfl)

/-- C8: with `contextAwareness` off, `getContext` returns the empty sequence
and leaves the store untouched, and both append operations are no-ops on the
store. -/
theorem contextAwareness_off_frame (bs : BotSettings) (hca : bs.contextAwareness = false)
    (userId content : String) (now : Nat) (s : Store) :
    getContext (some bs) userId s = ([], s) ∧
    addUserMessage (some bs) userId content now s = s ∧
    addBotMessage (some bs) userId content now s = s := by
  refine ⟨?_, ?_, ?_⟩ <;> simp [getContext, addUserMessage, addBotMessage, hca]

/-- Witness for C8 at a concrete settings row and store. -/
theorem contextAwareness_off_frame_witness :
    bsOff.contextAwareness = false ∧
    (getContext (some bsOff) "u" emptyStore = ([], emptyStore) ∧
     addUserMessage (some bsOff) "u" "hi" 0 emptyStore = emptyStore ∧
     addBotMessage (some bsOff) "u" "hi" 0 emptyStore = emptyStore) :=
  ⟨rfl, contextAwareness_off_frame bsOff rfl "u" "hi" 0 emptyStore⟩

/-- C2 (amended): for every user, every operation sequence and every step of
it, provided every resize asks for a positive new size, whenever the step
writes to the store the user's active window afterwards holds at most
`2 × contextSize` messages, for the size in effect at that step. -/
theorem window_bound_after_each_mutation (u : String) (ops : List CtxOp) (s0 : Store)
    (i : Nat) (hi : i < ops.length) (hok : ∀ op ∈ ops, op.sizeOk = true)
    (hw : (ctxStep u (ops.get ⟨i, hi⟩) (runCtx u (ops.take i) s0)).2 = true) :
    ∃ w, (ctxStep u (ops.get ⟨i, hi⟩) (runCtx u (ops.take i) s0)).1.activeWindow u = some w ∧
      w.length ≤ 2 * ctxOpSize (ops.get ⟨i, hi⟩) :=
  ctxStep_window_bound u _ _ (hok _ (ops.get_mem i hi)) hw

/-- Witness for C2 (amended): one append into an empty store, evaluated. -/
theorem window_bound_after_each_mutation_witness :
    (∀ op ∈ [CtxOp.appendUser (some bsOn) "hi" 0], op.sizeOk = true) ∧
    (ctxStep "u" (CtxOp.appendUser (some bsOn) "hi" 0) emptyStore).2 = true ∧
    ∃ w, (ctxStep "u" (CtxOp.appendUser (some bsOn) "hi" 0) emptyStore).1.activeWindow "u" =
        some w ∧
      w.length ≤ 2 * ctxOpSize (CtxOp.appendUser (some bsOn) "hi" 0) :=
  ⟨by decide, by decide,
    window_bound_after_each_mutation "u" [CtxOp.appendUser (some bsOn) "hi" 0] emptyStore 0
      (by decide) (by decide) (by decide)⟩

/-- Counterexample to C2 as stated: a resize to size 0 on a one-message
window still writes (`1 > 0`), but `slice(-0)` keeps the whole window, whose
length 1 exceeds `2 × 0`. -/
theorem window_bound_resize_zero_cex :
    (ctxStep "u" (CtxOp.resize 0) storeU).2 = true ∧
    (ctxStep "u" (CtxOp.resize 0) storeU).1.activeWindow "u" =
      some [{ role := "user", content := "hi", timestamp := 0 }] ∧
    ¬ ([({ role := "user", content := "hi", timestamp := 0 } : ContextMessage)].length ≤
        2 * ctxOpSize (CtxOp.resize 0)) := by decide

/-- C9 (amended): with `contextAwareness` on, `appendAssistant` does NOT
lazily create a conversation — with no active conversation it only logs and
leaves the store unchanged; with one present it appends the assistant turn
(which becomes the last window entry), keeps the window a suffix of the old
window plus that turn, and stays within `2 × contextSize`. -/
theorem appendAssistant_not_lazy (bs : BotSettings) (u content : String) (now : Nat)
    (s : Store) (hca : bs.contextAwareness = true) :
    (s.getActiveConversationByUserId u = Option.none →
      addBotMessage (some bs) u content now s = s) ∧
    (∀ conv, s.getActiveConversationByUserId u = some conv →
      ∃ w, (addBotMessage (some bs) u content now s).activeWindow u = some w ∧
        w.getLast? = some { role := "assistant", content := content, timestamp := now } ∧
        w <:+ conv.context ++ [{ role := "assistant", content := content, timestamp := now }] ∧
        w.length ≤ 2 * effectiveContextSize bs) :=
  ⟨fun hfound => addBot_noConversation (some bs) u content now s hfound,
   fun conv hfound => addBot_appends bs u content now s conv hca hfound⟩

/-- Witness for C9 (amended): appending to an existing one-message
conversation, evaluated. -/
theorem appendAssistant_not_lazy_witness :
    bsOn.contextAwareness = true ∧
    storeU.getActiveConversationByUserId "u" = some convU ∧
    ∃ w, (addBotMessage (some bsOn) "u" "ok" 1 storeU).activeWindow "u" = some w ∧
      w.getLast? = some { role := "assistant", content := "ok", timestamp := 1 } ∧
      w <:+ convU.context ++ [{ role := "assistant", content := "ok", timestamp := 1 }] ∧
      w.length ≤ 2 * effectiveContextSize bsOn :=
  ⟨rfl, by decide,
    (appendAssistant_not_lazy bsOn "u" "ok" 1 storeU rfl).2 convU (by decide)⟩

/-- Counterexample to C9 as stated: the claim promises an active conversation
holding the assistant turn exists after the call even when none existed
before; on an empty store the call changes nothing and no active conversation
exists afterwards. -/
theorem appendAssistant_no_creation_cex :
    bsOn.contextAwareness = true ∧
    addBotMessage (some bsOn) "u" "hi" 0 emptyStore = emptyStore ∧
    (addBotMessage (some bsOn) "u" "hi" 0 emptyStore).getActiveConversationByUserId "u" =
      Option.none := by decide

/-- C3 (amended): on a flagged payload with recording available, the decision
uses `maxScore` = the maximum score across ALL reported categories (not only
the flagged ones): a high-severity flagged category or `maxScore > 0.9` gives
`mute`; else `maxScore > 0.7` gives `warn`; else `none` with nothing written.
When no category is flagged (and the scorer's overall bit agrees), the result
is `none` with nothing written. -/
theorem moderation_policy_max_over_all_scores (env : ModEnv) (bs : BotSettings)
    (userId content : String) (results : ScorerResults)
    (hset : env.settings = some bs) (hmod : bs.autoModeration = true)
    (hcontent : trimStr content ≠ "") (hscorer : env.scorer = Except.ok results)
    (hrec : env.recordOk = true)
    (hflag : results.flagged = results.categories.any (·.2)) :
    (flaggedCategoryNames results = [] →
      moderateMessage env userId content = noneResult) ∧
    (flaggedCategoryNames results ≠ [] →
      (((flaggedCategoryNames results).any (fun c => highSeverityCategories.contains c) ||
          qGT (jsMaxQ (results.category_scores.map (·.2))) threshold09) = true →
        (moderateMessage env userId content).1.action = MAction.mute) ∧
      (((flaggedCategoryNames results).any (fun c => highSeverityCategories.contains c) ||
          qGT (jsMaxQ (results.category_scores.map (·.2))) threshold09) = false →
        qGT (jsMaxQ (results.category_scores.map (·.2))) threshold07 = true →
        (moderateMessage env userId content).1.action = MAction.warn) ∧
      (((flaggedCategoryNames results).any (fun c => highSeverityCategories.contains c) ||
          qGT (jsMaxQ (results.category_scores.map (·.2))) threshold09) = false →
        qGT (jsMaxQ (results.category_scores.map (·.2))) threshold07 = false →
        moderateMessage env userId content = noneResult)) := by
  constructor
  · intro hnil
    have hflag0 : results.flagged = false := by
      rw [hflag]
      exact (flaggedNames_nil_iff results).mp hnil
    simp [moderateMessage, hset, hmod, hscorer, hcontent, hflag0]
  · intro hnnil
    have hflag1 : results.flagged = true := by
      rw [hflag]
      cases hany : results.categories.any (·.2)
      · exact absurd ((flaggedNames_nil_iff results).mpr hany) hnnil
      · rfl
    refine ⟨?_, ?_, ?_⟩
    · intro hc
      have hdec : moderationDecision results = MAction.mute := by
        simp only [moderationDecision]
        rw [hc]
        rfl
      simp [moderateMessage, hset, hmod, hscorer, hcontent, hflag1, hrec, hdec]
    · intro hc h7
      have hdec : moderationDecision results = MAction.warn := by
        simp only [moderationDecision]
        rw [hc, h7]
        rfl
      simp [moderateMessage, hset, hmod, hscorer, hcontent, hflag1, hrec, hdec]
    · intro hc h7
      have hdec : moderationDecision results = MAction.none := by
        simp only [moderationDecision]
        rw [hc, h7]
        rfl
      simp [moderateMessage, hset, hmod, hscorer, hcontent, hflag1, hdec]

/-- Witness for C3 (amended): a flagged non-high-severity payload with top
score 0.75 is warned. -/
theorem moderation_policy_witness :
    trimStr "spam text" ≠ "" ∧
    warnResults.flagged = warnResults.categories.any (·.2) ∧
    (moderateMessage envWarn "u" "spam text").1.action = MAction.warn :=
  ⟨by decide, by decide,
    ((moderation_policy_max_over_all_scores envWarn bsOn "u" "spam text" warnResults rfl rfl
        (by decide) rfl rfl (by decide)).2 (by decide)).2.1 (by decide) (by decide)⟩

/-- Counterexample to C3 as stated: only a low-scoring category is flagged
(0.5) while an unflagged category scores 0.95; the claim's policy (max over
flagged categories) demands `none` with no record, but the code mutes and
writes a record because it maximises over all scores. -/
theorem moderation_policy_cex :
    (moderateMessage cexEnv "u" "bad words").1.action = MAction.mute ∧
    ((moderateMessage cexEnv "u" "bad words").2.filter (·.isRecord)) ≠ [] ∧
    claimedDecision cexResults = MAction.none ∧
    cexResults.flagged = cexResults.categories.any (·.2) := by decide

/-- C5: whenever `moderateMessage` returns `warn` or `mute`, its observable
trace starts with the ModerationAction store write — before any side effect —
and everything after it is a (fallible) side-effect attempt, never a record
removal; this holds for every environment, including ones where every side
effect fails. -/
theorem record_written_before_effects (env : ModEnv) (userId content : String)
    (hact : (moderateMessage env userId content).1.action = MAction.warn ∨
      (moderateMessage env userId content).1.action = MAction.mute) :
    ∃ reason rest,
      (moderateMessage env userId content).2 =
        MEvent.recordAction userId (moderateMessage env userId content).1.action reason ::
          rest ∧
      ∀ e ∈ rest, e.isRecord = false := by
  cases hset : env.settings with
  | none => simp [moderateMessage, hset, noneResult] at hact
  | some bs =>
    cases hmod : bs.autoModeration with
    | false => simp [moderateMessage, hset, hmod, noneResult] at hact
    | true =>
      by_cases hct : trimStr content = ""
      · simp [moderateMessage, hset, hmod, hct, noneResult] at hact
      · cases hscorer : env.scorer with
        | error e => simp [moderateMessage, hset, hmod, hct, hscorer, noneResult] at hact
        | ok results =>
          cases hfl : results.flagged with
          | false => simp [moderateMessage, hset, hmod, hct, hscorer, hfl, noneResult] at hact
          | true =>
            cases hrec : env.recordOk with
            | false =>
              simp [moderateMessage, hset, hmod, hct, hscorer, hfl, hrec, noneResult] at hact
            | true =>
              cases hdec : moderationDecision results with
              | none =>
                simp [moderateMessage, hset, hmod, hct, hscorer, hfl, hdec, noneResult] at hact
              | warn =>
                refine ⟨moderationReason results,
                  executeModerationAction env MAction.warn (moderationReason results), ?_,
                  fun e he => exec_no_record _ _ _ e he⟩
                simp [moderateMessage, hset, hmod, hct, hscorer, hfl, hrec, hdec]
              | mute =>
                refine ⟨moderationReason results,
                  executeModerationAction env MAction.mute (moderationReason results), ?_,
                  fun e he => exec_no_record _ _ _ e he⟩
                simp [moderateMessage, hset, hmod, hct, hscorer, hfl, hrec, hdec]
              | kick =>
                refine ⟨moderationReason results,
                  executeModerationAction env MAction.kick (moderationReason results), ?_,
                  fun e he => exec_no_record _ _ _ e he⟩
                simp [moderateMessage, hset, hmod, hct, hscorer, hfl, hrec, hdec]
              | ban =>
                refine ⟨moderationReason results,
                  executeModerationAction env MAction.ban (moderationReason results), ?_,
                  fun e he => exec_no_record _ _ _ e he⟩
                simp [moderateMessage, hset, hmod, hct, hscorer, hfl, hrec, hdec]

/-- Witness for C5: a `mute` decision in an environment where the guild
context is missing and the timeout fails — the record write still heads the
trace. -/
theorem record_written_before_effects_witness :
    (moderateMessage envEffectsFail "u" "violent text").1.action = MAction.mute ∧
    ∃ reason rest,
      (moderateMessage envEffectsFail "u" "violent text").2 =
        MEvent.recordAction "u" (moderateMessage envEffectsFail "u" "violent text").1.action
          reason :: rest ∧
      ∀ e ∈ rest, e.isRecord = false :=
  ⟨by decide,
    record_written_before_effects envEffectsFail "u" "violent text" (Or.inr (by decide))⟩

/-- C10: a thrown scorer call is swallowed by the outer catch and yields
action `none` with no record written and no side effect attempted — exactly
the output produced for a payload the scorer did not flag. -/
theorem moderation_failures_yield_none (env : ModEnv) (userId content : String) :
    (∀ err, env.scorer = Except.error err →
      moderateMessage env userId content = noneResult) ∧
    (∀ results, env.scorer = Except.ok results → results.flagged = false →
      moderateMessage env userId content = noneResult) := by
  obtain ⟨settings, scorer, recordOk, inGuild, timeoutOk⟩ := env
  constructor
  · rintro err rfl
    cases settings with
    | none => rfl
    | some bs =>
      cases hmod : bs.autoModeration with
      | false => simp [moderateMessage, hmod]
      | true =>
        by_cases hct : trimStr content = "" <;> simp [moderateMessage, hmod, hct]
  · rintro results rfl hfl
    cases settings with
    | none => rfl
    | some bs =>
      cases hmod : bs.autoModeration with
      | false => simp [moderateMessage, hmod]
      | true =>
        by_cases hct : trimStr content = "" <;> simp [moderateMessage, hmod, hct, hfl]

/-- Witness for C10: the scorer-failure and unflagged-payload environments
both evaluate to the no-action, empty-trace output. -/
theorem moderation_failures_yield_none_witness :
    moderateMessage envScorerErr "u" "hello" = noneResult ∧
    moderateMessage envUnflagged "u" "hello" = noneResult :=
  ⟨(moderation_failures_yield_none envScorerErr "u" "hello").1 "OpenAI API error" rfl,
   (moderation_failures_yield_none envUnflagged "u" "hello").2 unflaggedResults rfl rfl⟩

/-- C4: the availability state moves from Live (`useOpenAI = true`) to
Fallback only when a backend call fails with a quota/rate-limit class error;
from Fallback no operation ever returns to Live and no backend attempt is
made, with the output independent of the backend oracle; the triggering call
itself is answered by the fallback matcher (one backend attempt, no retry)
with a non-empty string. Stated for `generateResponse`,
`processNaturalLanguage` and `analyzeSentiment`. -/
theorem fallback_one_way_state_machine :
    (∀ (p : String) (b : BackendOutcome),
      (generateResponse false p b).useOpenAI = false ∧
      (generateResponse false p b).backendAttempted = false ∧
      generateResponse false p b = generateResponse false p (.fail "x")) ∧
    (∀ (p : String) (b : BackendOutcome),
      (generateResponse true p b).useOpenAI = false →
      ∃ err, b = .fail err ∧ quotaClass err = true) ∧
    (∀ (p err : String), quotaClass err = true →
      (generateResponse true p (.fail err)).useOpenAI = false ∧
      (generateResponse true p (.fail err)).response = getFallbackResponse p ∧
      (generateResponse true p (.fail err)).response ≠ "" ∧
      (generateResponse true p (.fail err)).backendAttempted = true) ∧
    (∀ (settings : Option BotSettings) (u c : String) (now : Nat) (b : BackendOutcome)
        (s : Store),
      (processNaturalLanguage false settings u c now b s).useOpenAI = false ∧
      (processNaturalLanguage false settings u c now b s).backendAttempted = false ∧
      processNaturalLanguage false settings u c now b s =
        processNaturalLanguage false settings u c now (.fail "x") s) ∧
    (∀ (settings : Option BotSettings) (u c : String) (now : Nat) (b : BackendOutcome)
        (s : Store),
      (processNaturalLanguage true settings u c now b s).useOpenAI = false →
      ∃ err, b = .fail err ∧ quotaClass err = true) ∧
    (∀ (settings : Option BotSettings) (u c : String) (now : Nat) (err : String) (s : Store),
      quotaClass err = true →
      (processNaturalLanguage true settings u c now (.fail err) s).useOpenAI = false ∧
      (processNaturalLanguage true settings u c now (.fail err) s).response =
        getFallbackResponse c ∧
      (processNaturalLanguage true settings u c now (.fail err) s).response ≠ "") ∧
    (∀ (t : String) (b : SentimentOutcome),
      (analyzeSentiment false t b).1 = false ∧
      (analyzeSentiment false t b).2.2.2 = false ∧
      analyzeSentiment false t b = analyzeSentiment false t (.fail "x")) ∧
    (∀ (t : String) (b : SentimentOutcome),
      (analyzeSentiment true t b).1 = false →
      ∃ err, b = .fail err ∧ quotaClass err = true) := by
  refine ⟨?_, ?_, ?_, ?_, ?_, ?_, ?_, ?_⟩
  · intro p b
    refine ⟨?_, ?_, ?_⟩ <;> simp [generateResponse]
  · intro p b h
    cases b with
    | ok t => simp [generateResponse] at h
    | fail e =>
      simp [generateResponse] at h
      exact ⟨e, rfl, h⟩
  · intro p err hq
    refine ⟨?_, ?_, ?_, ?_⟩ <;> simp [generateResponse, hq, getFallbackResponse_ne_empty p]
  · intro settings u c now b s
    refine ⟨?_, ?_, ?_⟩ <;> simp [processNaturalLanguage]
  · intro settings u c now b s h
    cases b with
    | ok t => simp [processNaturalLanguage] at h
    | fail e =>
      simp [processNaturalLanguage] at h
      exact ⟨e, rfl, h⟩
  · intro settings u c now err s hq
    refine ⟨?_, ?_, ?_⟩ <;>
      simp [processNaturalLanguage, hq, getFallbackResponse_ne_empty c]
  · intro t b
    refine ⟨?_, ?_, ?_⟩ <;> simp [analyzeSentiment]
  · intro t b h
    cases b with
    | ok r cf => simp [analyzeSentiment] at h
    | fail e =>
      simp [analyzeSentiment] at h
      exact ⟨e, rfl, h⟩

/-- Witness for C4: a quota error demotes a Live call and is answered
non-emptily; a Fallback call makes no backend attempt. -/
theorem fallback_one_way_witness :
    quotaClass "Error: insufficient_quota while calling the API" = true ∧
    (generateResponse true "hello"
      (.fail "Error: insufficient_quota while calling the API")).useOpenAI = false ∧
    (generateResponse true "hello"
      (.fail "Error: insufficient_quota while calling the API")).response ≠ "" ∧
    (generateResponse false "hello" (.ok (some "hi there"))).backendAttempted = false := by
  refine ⟨by decide, ?_, ?_, ?_⟩
  · exact (fallback_one_way_state_machine.2.2.1 "hello" _ (by decide)).1
  · exact (fallback_one_way_state_machine.2.2.1 "hello" _ (by decide)).2.2.1
  · exact (fallback_one_way_state_machine.1 "hello" (.ok (some "hi there"))).2.1

/-- C6 (amended): on a transient (non-quota, non-rate-limit) backend failure
in the Live state, the state stays Live, but the call is answered with the
deterministic fallback response for the message content — not a generic
apology — and that reply IS appended to the context as an assistant turn
(when context awareness is on). -/
theorem transient_failure_keeps_live_appends_fallback (settings : Option BotSettings)
    (u c : String) (now : Nat) (err : String) (s : Store)
    (htrans : quotaClass err = false) :
    (processNaturalLanguage true settings u c now (.fail err) s).useOpenAI = true ∧
    (processNaturalLanguage true settings u c now (.fail err) s).response =
      getFallbackResponse c ∧
    (∀ bs, settings = some bs → bs.contextAwareness = true →
      ∃ w, (processNaturalLanguage true settings u c now (.fail err) s).store.activeWindow u =
          some w ∧
        w.getLast? =
          some { role := "assistant", content := getFallbackResponse c, timestamp := now }) := by
  refine ⟨by simp [processNaturalLanguage, htrans], by simp [processNaturalLanguage], ?_⟩
  rintro bs rfl hca
  obtain ⟨w0, hw0, _⟩ := addUser_window_bound bs u c now s hca
  unfold Store.activeWindow at hw0
  obtain ⟨conv, hconv, _⟩ := Option.map_eq_some'.mp hw0
  have hs2 : (getContext (some bs) u (addUserMessage (some bs) u c now s)).2 =
      addUserMessage (some bs) u c now s := by
    simp [getContext, hca, hconv]
  obtain ⟨w, h1, h2, _, _⟩ :=
    addBot_appends bs u (getFallbackResponse c) now (addUserMessage (some bs) u c now s) conv
      hca hconv
  refine ⟨w, ?_, h2⟩
  simp only [processNaturalLanguage, Bool.not_true, Bool.false_eq_true, if_false, hs2]
  exact h1

/-- Witness for C6 (amended): a concrete transient failure against a store
holding an active conversation, evaluated. -/
theorem transient_failure_keeps_live_witness :
    quotaClass "connection reset" = false ∧
    (processNaturalLanguage true (some bsOn) "u" "ping" 1 (.fail "connection reset")
      storeU).useOpenAI = true ∧
    ∃ w, (processNaturalLanguage true (some bsOn) "u" "ping" 1 (.fail "connection reset")
        storeU).store.activeWindow "u" = some w ∧
      w.getLast? =
        some { role := "assistant", content := getFallbackResponse "ping", timestamp := 1 } :=
  ⟨by decide,
   (transient_failure_keeps_live_appends_fallback (some bsOn) "u" "ping" 1 "connection reset"
      storeU (by decide)).1,
   (transient_failure_keeps_live_appends_fallback (some bsOn) "u" "ping" 1 "connection reset"
      storeU (by decide)).2.2 bsOn rfl rfl⟩

/-- Counterexample to C6 as stated: at a concrete transient failure the
availability state indeed stays Live, but the reply is the offline-mode
fallback text rather than a generic apology, and an assistant turn IS
appended to the user's window. -/
theorem transient_failure_cex :
    (processNaturalLanguage true (some bsOn) "u" "what is love" 0
      (.fail "connection reset") emptyStore).useOpenAI = true ∧
    (processNaturalLanguage true (some bsOn) "u" "what is love" 0
      (.fail "connection reset") emptyStore).response ≠ apologyReply ∧
    ((processNaturalLanguage true (some bsOn) "u" "what is love" 0
        (.fail "connection reset") emptyStore).store.activeWindow "u").map
      (fun w => w.map (·.role)) = some ["user", "assistant"] := by decide

end DiscordAgent

